import Mathlib

/-!
Verification of the HTML report generator in `generate_allure_report.py`
(class `AllureReportGenerator`).  The Python code works on JSON dictionaries;
a possibly-missing key is modelled as an `Option` field, and every
`dict.get(key, default)` in the source becomes `Option.getD`.  The
statistics dictionary of `get_statistics` is modelled as a total function
`String → Nat`: the Python dictionary is initialised with six keys all at 0
and is only read through `stats.get(status, 0)` / direct access to keys it
surely holds, so a function that is 0 outside the updated keys is an exact
model.  Status strings in the repository's data are ASCII, where Python's
`str.lower` and Lean's `String.toLower` agree.
-/

namespace AllureReport

/-- One `{name, status}` step dictionary of a result record. -/
structure Step where
  name : Option String := none
  status : Option String := none
deriving DecidableEq

/-- One `{name, value}` label dictionary of a result record. -/
structure Label where
  name : Option String := none
  value : Option String := none
deriving DecidableEq

/-- One `{name, source, type}` attachment reference of a result record.
The source also reads a `type` key (defaulting to `text/plain`) but never
uses it; it is kept here for completeness. -/
structure Attachment where
  name : Option String := none
  source : Option String := none
  type : Option String := none
deriving DecidableEq

/-- The optional `statusDetails` dictionary of a result record. -/
structure StatusDetails where
  message : Option String := none
  trace : Option String := none
deriving DecidableEq

/-- One loaded `*-result.json` record.  Every key may be absent. -/
structure ResultRecord where
  name : Option String := none
  fullName : Option String := none
  status : Option String := none
  start : Option Int := none
  stop : Option Int := none
  steps : Option (List Step) := none
  labels : Option (List Label) := none
  attachments : Option (List Attachment) := none
  statusDetails : Option StatusDetails := none
deriving DecidableEq

/-- A record whose `status` key is the given value and whose other keys are
all absent. -/
def mkStatus (s : Option String) : ResultRecord := { status := s }

/-- The loaded attachment blobs: `self.attachments` is a dict from file
name to file content, modelled as an association list with unique keys
(file names are unique); membership and indexing become `List.lookup`. -/
def AttachmentStore := List (String × String)

/-- Python's `str.lower()` on the ASCII data of this repository: Lean's
`String.toLower`, written as a structural map over the character list so
that terms involving it evaluate by kernel reduction
(`String.toLower` itself is defined through `String.mapAux`, whose
well-founded recursion does not reduce); `lower_eq_toLower` proves the
two agree. -/
def lower (s : String) : String :=
  ⟨s.data.map Char.toLower⟩

theorem lower_eq_toLower (s : String) : lower s = s.toLower := by
  simp [lower, String.toLower, String.map_eq]

/-- Embeds `get_status_color` (generate_allure_report.py:38-47): a
dictionary lookup on the lower-cased status with default `#607d8b`. -/
def get_status_color (status : String) : String :=
  let s := lower status
  if s = "passed" then "#4caf50"
  else if s = "failed" then "#f44336"
  else if s = "broken" then "#ff9800"
  else if s = "skipped" then "#9e9e9e"
  else if s = "unknown" then "#607d8b"
  else "#607d8b"

/-- Embeds `get_status_icon` (generate_allure_report.py:49-58): a
dictionary lookup on the lower-cased status with default `?`. -/
def get_status_icon (status : String) : String :=
  let s := lower status
  if s = "passed" then "✓"
  else if s = "failed" then "✗"
  else if s = "broken" then "⚠"
  else if s = "skipped" then "○"
  else if s = "unknown" then "?"
  else "?"

/-- Renders `n` as a decimal numeral padded to two digits, as Python's
`:.2f` fraction part does. -/
def pad2 (n : Nat) : String :=
  if n < 10 then "0" ++ toString n else toString n

/-- Renders `ms` milliseconds as seconds with two decimals, the meaning of
`f"{seconds:.2f}"` for `seconds = ms / 1000`.  Python computes `seconds`
as a binary double and lets `:.2f` round it to the nearest hundredth
(ties to even); on exact halves the double carries a representation error
that can tip the rounding either way.  This embedding uses the exact
rational value of `ms / 1000` with ties to even, which agrees with the
source away from half-way points, in particular on every multiple of
10 ms (all inputs named by the specification are multiples of 500 ms). -/
def round_half_even (ms : Nat) : Nat :=
  let q := ms / 10
  let r := ms % 10
  if r < 5 then q else if 5 < r then q + 1 else if q % 2 = 0 then q else q + 1

def format_two_dec (ms : Nat) : String :=
  toString (round_half_even ms / 100) ++ "." ++ pad2 (round_half_even ms % 100)

/-- Embeds `format_duration` (generate_allure_report.py:60-69).  For
integer input the source's float comparisons `duration_ms < 1000`,
`seconds < 60` and the truncation `int(seconds / 60)` are exact, so the
branch structure and the minute count translate to integer arithmetic;
the two-decimal second rendering is `format_two_dec`. -/
def format_duration (duration_ms : Int) : String :=
  if duration_ms < 1000 then toString duration_ms ++ "ms"
  else if duration_ms < 60000 then format_two_dec duration_ms.toNat ++ "s"
  else
    toString (duration_ms.toNat / 60000) ++ "m " ++
      format_two_dec (duration_ms.toNat % 60000) ++ "s"

/-- The key a record is counted under in `get_statistics`:
`result.get('status', 'unknown').lower()` (generate_allure_report.py:75). -/
def statusKey (r : ResultRecord) : String :=
  lower (r.status.getD "unknown")

/-- One iteration of the `get_statistics` loop
(generate_allure_report.py:74-77): `stats[status] = stats.get(status, 0) + 1`
followed by `stats['total'] += 1`, as a pointwise update of the model
function. -/
def bump (stats : String → Nat) (r : ResultRecord) : String → Nat :=
  let status := statusKey r
  let stats1 : String → Nat := fun k => if k = status then stats status + 1 else stats k
  fun k => if k = "total" then stats1 "total" + 1 else stats1 k

/-- Embeds `get_statistics` (generate_allure_report.py:71-78).  The initial
dictionary maps its six keys to 0 and `stats.get(·, 0)` maps every other
key to 0, so the initial state is the constant-zero function. -/
def get_statistics (results : List ResultRecord) : String → Nat :=
  results.foldl bump fun _ => 0

/-- The sort key of `sorted(self.results, key=...)`
(generate_allure_report.py:86-88): the raw `status` value (no default, no
lower-casing) is compared to `failed` and then to `broken`. -/
def sort_key (r : ResultRecord) : Nat :=
  if r.status = some "failed" then 0
  else if r.status = some "broken" then 1
  else 2

/-- The comparison used to sort records: non-decreasing `sort_key`. -/
def le_key (a b : ResultRecord) : Bool :=
  sort_key a ≤ sort_key b

/-- Embeds the `sorted(...)` call of `generate_html`
(generate_allure_report.py:86-88).  Python's `sorted` is a stable
comparison sort; `List.mergeSort` is stable as well, and the stable sort
by a given key is extensionally unique, so this is an exact model. -/
def sorted_results (results : List ResultRecord) : List ResultRecord :=
  results.mergeSort le_key

/-- Records whose sort key is `v`. -/
def keyIs (v : Nat) : ResultRecord → Bool :=
  fun r => sort_key r == v

/-- The status buckets present in the statistics: the five initialised
keys plus the key of every counted record. -/
def bucket_keys (results : List ResultRecord) : List String :=
  (["passed", "failed", "broken", "skipped", "unknown"] ++
    results.map statusKey).dedup

/-! ### Counting lemmas for `get_statistics` -/

theorem bump_total (stats : String → Nat) (r : ResultRecord) :
    bump stats r "total" =
      stats "total" + (if statusKey r = "total" then 1 else 0) + 1 := by
  unfold bump
  by_cases h : statusKey r = "total" <;> simp [h, eq_comm (a := "total")]

theorem bump_ne (stats : String → Nat) (r : ResultRecord) {k : String}
    (hk : k ≠ "total") :
    bump stats r k = stats k + (if statusKey r = k then 1 else 0) := by
  unfold bump
  by_cases h : statusKey r = k
  · subst h
    simp [hk]
  · have h' : ¬k = statusKey r := fun hh => h hh.symm
    simp [hk, h, h']

theorem foldl_bump_total (results : List ResultRecord) :
    ∀ init : String → Nat,
      (results.foldl bump init) "total" =
        init "total" + results.length +
          List.count "total" (results.map statusKey) := by
  induction results with
  | nil => intro init; simp
  | cons r rest ih =>
    intro init
    simp only [List.foldl_cons, List.map_cons, List.count_cons, ih,
      bump_total, List.length_cons]
    by_cases h : statusKey r = "total" <;> simp [h] <;> omega

theorem foldl_bump_ne (results : List ResultRecord) {k : String}
    (hk : k ≠ "total") :
    ∀ init : String → Nat,
      (results.foldl bump init) k =
        init k + List.count k (results.map statusKey) := by
  induction results with
  | nil => intro init; simp
  | cons r rest ih =>
    intro init
    rw [List.foldl_cons, ih (bump init r), bump_ne init r hk,
      List.map_cons, List.count_cons]
    by_cases h : statusKey r = k <;> simp [h] <;> omega

theorem get_statistics_total (results : List ResultRecord) :
    get_statistics results "total" =
      results.length + List.count "total" (results.map statusKey) := by
  simpa [get_statistics] using foldl_bump_total results fun _ => 0

theorem get_statistics_bucket (results : List ResultRecord) {k : String}
    (hk : k ≠ "total") :
    get_statistics results k = List.count k (results.map statusKey) := by
  simpa [get_statistics] using foldl_bump_ne results hk fun _ => 0

theorem sum_map_add (keys : List String) (f g : String → Nat) :
    (keys.map fun k => f k + g k).sum = (keys.map f).sum + (keys.map g).sum := by
  induction keys with
  | nil => simp
  | cons k keys ih => simp [ih]; omega

theorem sum_indicator_zero {x : String} (keys : List String)
    (hx : x ∉ keys) :
    (keys.map fun k => if x = k then 1 else 0).sum = 0 := by
  induction keys with
  | nil => simp
  | cons k keys ih =>
    simp only [List.mem_cons, not_or] at hx
    simp [ih hx.2, hx.1]

theorem sum_indicator {x : String} (keys : List String) (hnd : keys.Nodup)
    (hx : x ∈ keys) :
    (keys.map fun k => if x = k then 1 else 0).sum = 1 := by
  induction keys with
  | nil => simp at hx
  | cons k keys ih =>
    rcases List.nodup_cons.mp hnd with ⟨hk, hnd'⟩
    rcases List.mem_cons.mp hx with h | h
    · subst h
      simp [sum_indicator_zero keys hk]
    · have hxk : x ≠ k := by
        rintro rfl
        exact hk h
      simp [ih hnd' h, hxk]

theorem sum_counts (keys : List String) (hnd : keys.Nodup) :
    ∀ L : List String, (∀ a ∈ L, a ∈ keys) →
      (keys.map fun k => List.count k L).sum = L.length := by
  intro L
  induction L with
  | nil => intro _; simp
  | cons x L ih =>
    intro hmem
    have hx : x ∈ keys := hmem x (List.mem_cons_self x L)
    have hL : ∀ a ∈ L, a ∈ keys := fun a ha => hmem a (List.mem_cons_of_mem x ha)
    have h1 : (keys.map fun k => List.count k (x :: L)).sum
        = (keys.map fun k => List.count k L + if x = k then 1 else 0).sum := by
      simp [List.count_cons]
    rw [h1, sum_map_add keys (fun k => List.count k L)
      (fun k => if x = k then 1 else 0), ih hL, sum_indicator keys hnd hx]
    simp

/-! ### The sort used for display ordering -/

theorem le_key_trans (a b c : ResultRecord) :
    le_key a b = true → le_key b c = true → le_key a c = true := by
  simp only [le_key, decide_eq_true_eq]
  omega

theorem le_key_total (a b : ResultRecord) :
    (le_key a b || le_key b a) = true := by
  simp only [le_key, Bool.or_eq_true, decide_eq_true_eq]
  omega

theorem sort_key_le_two (r : ResultRecord) : sort_key r ≤ 2 := by
  unfold sort_key
  split_ifs <;> omega

/-- Stability of the sort, filter form: the records of any fixed tier
appear in the sorted output exactly as they appear in the input. -/
theorem mergeSort_filter_key (results : List ResultRecord) (v : Nat) :
    (sorted_results results).filter (keyIs v) = results.filter (keyIs v) := by
  have hsub : List.Sublist (results.filter (keyIs v)) results := List.filter_sublist _
  have hpair : (results.filter (keyIs v)).Pairwise fun a b => le_key a b = true := by
    refine List.pairwise_of_forall_mem_list ?_
    intro a ha b hb
    have ha' := (List.mem_filter.mp ha).2
    have hb' := (List.mem_filter.mp hb).2
    simp only [keyIs, beq_iff_eq] at ha' hb'
    simp [le_key, ha', hb']
  have hsub2 : List.Sublist (results.filter (keyIs v)) (sorted_results results) :=
    List.sublist_mergeSort le_key_trans le_key_total hpair hsub
  have hself : (results.filter (keyIs v)).filter (keyIs v) = results.filter (keyIs v) :=
    List.filter_eq_self.mpr fun a ha => (List.mem_filter.mp ha).2
  have hsub3 : List.Sublist (results.filter (keyIs v))
      ((sorted_results results).filter (keyIs v)) := by
    simpa [hself] using hsub2.filter (keyIs v)
  have hlen : ((sorted_results results).filter (keyIs v)).length =
      (results.filter (keyIs v)).length :=
    ((List.mergeSort_perm results le_key).filter (keyIs v)).length_eq
  exact (hsub3.eq_of_length hlen.symm).symm

/-- Any list that is pairwise sorted by the three-valued key is the
concatenation of its three tiers. -/
theorem pairwise_key_partition (l : List ResultRecord)
    (hp : l.Pairwise fun a b => le_key a b = true) :
    l = l.filter (keyIs 0) ++ l.filter (keyIs 1) ++ l.filter (keyIs 2) := by
  induction l with
  | nil => simp
  | cons x t ih =>
    rcases List.pairwise_cons.mp hp with ⟨hx, ht⟩
    have htail := ih ht
    have h3 : sort_key x = 0 ∨ sort_key x = 1 ∨ sort_key x = 2 := by
      have := sort_key_le_two x
      omega
    have hxval : ∀ b ∈ t, sort_key x ≤ sort_key b := by
      intro b hb
      have := hx b hb
      simpa [le_key] using this
    rcases h3 with h | h | h
    · have f0 : (x :: t).filter (keyIs 0) = x :: t.filter (keyIs 0) := by
        simp [List.filter_cons, keyIs, h]
      have f1 : (x :: t).filter (keyIs 1) = t.filter (keyIs 1) := by
        simp [List.filter_cons, keyIs, h]
      have f2 : (x :: t).filter (keyIs 2) = t.filter (keyIs 2) := by
        simp [List.filter_cons, keyIs, h]
      rw [f0, f1, f2, List.cons_append, List.cons_append]
      exact congrArg (x :: ·) htail
    · have h0 : t.filter (keyIs 0) = [] := by
        refine List.filter_eq_nil_iff.mpr ?_
        intro b hb
        have := hxval b hb
        simp only [keyIs, beq_iff_eq]
        omega
      have f0 : (x :: t).filter (keyIs 0) = [] := by
        simp [List.filter_cons, keyIs, h, h0]
      have f1 : (x :: t).filter (keyIs 1) = x :: t.filter (keyIs 1) := by
        simp [List.filter_cons, keyIs, h]
      have f2 : (x :: t).filter (keyIs 2) = t.filter (keyIs 2) := by
        simp [List.filter_cons, keyIs, h]
      rw [f0, f1, f2, List.nil_append, List.cons_append]
      rw [h0, List.nil_append] at htail
      exact congrArg (x :: ·) htail
    · have h0 : t.filter (keyIs 0) = [] := by
        refine List.filter_eq_nil_iff.mpr ?_
        intro b hb
        have := hxval b hb
        simp only [keyIs, beq_iff_eq]
        omega
      have h1 : t.filter (keyIs 1) = [] := by
        refine List.filter_eq_nil_iff.mpr ?_
        intro b hb
        have := hxval b hb
        simp only [keyIs, beq_iff_eq]
        omega
      have f0 : (x :: t).filter (keyIs 0) = [] := by
        simp [List.filter_cons, keyIs, h, h0]
      have f1 : (x :: t).filter (keyIs 1) = [] := by
        simp [List.filter_cons, keyIs, h, h1]
      have f2 : (x :: t).filter (keyIs 2) = x :: t.filter (keyIs 2) := by
        simp [List.filter_cons, keyIs, h]
      rw [f0, f1, f2, List.nil_append, List.nil_append]
      rw [h0, h1, List.nil_append, List.nil_append] at htail
      exact congrArg (x :: ·) htail

/-- The sorted output is exactly: the `failed`-tier records in input
order, then the `broken`-tier records, then the rest. -/
theorem sorted_results_partition (results : List ResultRecord) :
    sorted_results results =
      results.filter (keyIs 0) ++ results.filter (keyIs 1) ++
        results.filter (keyIs 2) := by
  have hp : (sorted_results results).Pairwise fun a b => le_key a b = true :=
    List.sorted_mergeSort le_key_trans le_key_total results
  have hpart := pairwise_key_partition _ hp
  rw [hpart, mergeSort_filter_key, mergeSort_filter_key, mergeSort_filter_key]

theorem keyIs_zero (r : ResultRecord) :
    keyIs 0 r = (r.status == some "failed") := by
  unfold keyIs sort_key
  by_cases h1 : r.status = some "failed" <;> by_cases h2 : r.status = some "broken" <;>
    simp [h1, h2]

theorem keyIs_one (r : ResultRecord) :
    keyIs 1 r = (r.status == some "broken") := by
  unfold keyIs sort_key
  by_cases h1 : r.status = some "failed"
  · simp [h1]
  · by_cases h2 : r.status = some "broken" <;> simp [h1, h2]

theorem keyIs_two (r : ResultRecord) :
    keyIs 2 r = (r.status != some "failed" && r.status != some "broken") := by
  unfold keyIs sort_key
  by_cases h1 : r.status = some "failed"
  · simp [h1]
  · by_cases h2 : r.status = some "broken" <;> simp [h1, h2]

/-- A record counted under no status key of a well-formed run: none of its
records lower-cases to the reserved key `total`. -/
theorem count_total_eq_zero (results : List ResultRecord)
    (h : ∀ r ∈ results, statusKey r ≠ "total") :
    List.count "total" (results.map statusKey) = 0 := by
  refine List.count_eq_zero.mpr ?_
  intro hmem
  rcases List.mem_map.mp hmem with ⟨r, hr, hkey⟩
  exact h r hr hkey

/-- A record whose `status` field is the string `total`. -/
def totalRec : ResultRecord := mkStatus (some "total")

/-! ### Claims -/

/-- C1, counterexample: the claim promises `total == N` for every record
list, "regardless of malformed or missing fields".  A record whose
`status` is the string `total` collides with the `total` key of the
statistics dictionary: the bucket update `stats[status] += 1` and the
`stats['total'] += 1` update hit the same cell, so one loaded record
yields `total = 2`. -/
theorem claim_C1_counterexample :
    get_statistics [totalRec] "total" = 2 ∧
    ([totalRec] : List ResultRecord).length = 1 ∧
    get_statistics [totalRec] "total" ≠ ([totalRec] : List ResultRecord).length := by
  refine ⟨by decide, rfl, by decide⟩

/-- C1, amended: for every list of loaded result records none of whose
records has a status that lower-cases (with the `unknown` default for a
missing status) to the reserved dictionary key `total`, the statistics
computed by `get_statistics` satisfy `total == N` exactly, where `N` is
the number of records; malformed or missing fields otherwise do not
matter (a missing `status` defaults to `unknown`). -/
theorem claim_C1 (results : List ResultRecord)
    (h : ∀ r ∈ results, statusKey r ≠ "total") :
    get_statistics results "total" = results.length := by
  rw [get_statistics_total, count_total_eq_zero results h]
  omega

/-- Witness for C1 at a concrete two-record input. -/
theorem claim_C1_witness :
    get_statistics [mkStatus (some "passed"), mkStatus none] "total" = 2 :=
  claim_C1 [mkStatus (some "passed"), mkStatus none] (by decide)

/-- C2, counterexample: a record whose status is the string `total` is
"counted" in the bucket named `total`, which is the total cell itself,
so that bucket's reported count (2) is not the number of records counted
into it (1): the claim that every record is counted in exactly one status
bucket of the statistics fails as stated. -/
theorem claim_C2_counterexample :
    "total" ∈ bucket_keys [totalRec] ∧
    get_statistics [totalRec] "total" = 2 ∧
    List.count "total" ([totalRec].map statusKey) = 1 ∧
    get_statistics [totalRec] "total" ≠
      List.count "total" ([totalRec].map statusKey) := by
  refine ⟨by decide, by decide, by decide, by decide⟩

/-- C2, amended: for every list of loaded result records none of whose
records has a status key equal to `total`, every record is counted in
exactly one status bucket (each bucket's count in the statistics equals
the number of records whose defaulted lower-cased status is that bucket's
key, statuses outside the five defined buckets included), and the sum of
all per-bucket counts equals the `total` count. -/
theorem claim_C2 (results : List ResultRecord)
    (h : ∀ r ∈ results, statusKey r ≠ "total") :
    (∀ k ∈ bucket_keys results,
        get_statistics results k = List.count k (results.map statusKey)) ∧
    ((bucket_keys results).map (get_statistics results)).sum =
      get_statistics results "total" := by
  have hknot : ∀ k ∈ bucket_keys results, k ≠ "total" := by
    intro k hk
    unfold bucket_keys at hk
    rcases List.mem_append.mp (List.mem_dedup.mp hk) with h5 | hmap
    · fin_cases h5 <;> decide
    · rcases List.mem_map.mp hmap with ⟨r, hr, rfl⟩
      exact h r hr
  refine ⟨fun k hk => get_statistics_bucket results (hknot k hk), ?_⟩
  have hnd : (bucket_keys results).Nodup := by
    unfold bucket_keys
    exact List.nodup_dedup _
  have hmem : ∀ a ∈ results.map statusKey, a ∈ bucket_keys results := by
    intro a ha
    unfold bucket_keys
    exact List.mem_dedup.mpr (List.mem_append_right _ ha)
  have hmapeq : (bucket_keys results).map (get_statistics results)
      = (bucket_keys results).map fun k => List.count k (results.map statusKey) :=
    List.map_congr_left fun k hk => get_statistics_bucket results (hknot k hk)
  rw [hmapeq, sum_counts _ hnd _ hmem, get_statistics_total,
    count_total_eq_zero results h, List.length_map]
  omega

/-- Witness for C2 at a concrete input with an exotic status string. -/
theorem claim_C2_witness :
    ((bucket_keys [mkStatus (some "Flaky")]).map
        (get_statistics [mkStatus (some "Flaky")])).sum =
      get_statistics [mkStatus (some "Flaky")] "total" :=
  (claim_C2 [mkStatus (some "Flaky")] (by decide)).2

/-- C3: the display ordering is a stable three-tier partition: the sorted
list is exactly the records whose raw status is `failed` in original
order, then those whose raw status is `broken` in original order, then
all other records in original order. -/
theorem claim_C3 (results : List ResultRecord) :
    sorted_results results =
      results.filter (fun r => r.status == some "failed") ++
      results.filter (fun r => r.status == some "broken") ++
      results.filter (fun r => r.status != some "failed" &&
        r.status != some "broken") := by
  rw [sorted_results_partition,
    List.filter_congr fun r _ => keyIs_zero r,
    List.filter_congr fun r _ => keyIs_one r,
    List.filter_congr fun r _ => keyIs_two r]

/-- C10: the display tier is decided by comparing the raw `status` value,
without lower-casing and without the `unknown` default used for counting:
tier 0 and tier 1 hold exactly the records whose status is literally
`failed` resp. `broken`; a record with an absent status or with status
`FAILED` lands in the third tier even though the statistics count it as
`unknown` resp. `failed`; concretely, a `FAILED` record sorts after a
`broken` one while being counted in the `failed` bucket. -/
theorem claim_C10 (r : ResultRecord) :
    (sort_key r = 0 ↔ r.status = some "failed") ∧
    (sort_key r = 1 ↔ r.status = some "broken") ∧
    (sort_key r = 2 ↔ (r.status ≠ some "failed" ∧ r.status ≠ some "broken")) ∧
    sort_key (mkStatus none) = 2 ∧
    sort_key (mkStatus (some "FAILED")) = 2 ∧
    statusKey (mkStatus (some "FAILED")) = "failed" ∧
    statusKey (mkStatus none) = "unknown" ∧
    sorted_results [mkStatus (some "FAILED"), mkStatus (some "broken")] =
      [mkStatus (some "broken"), mkStatus (some "FAILED")] ∧
    get_statistics [mkStatus (some "FAILED"), mkStatus (some "broken")]
      "failed" = 1 := by
  refine ⟨?_, ?_, ?_, by decide, by decide, by decide, by decide, ?_, by decide⟩
  · unfold sort_key
    by_cases h1 : r.status = some "failed"
    · simp [h1]
    · by_cases h2 : r.status = some "broken" <;> simp [h1, h2]
  · unfold sort_key
    by_cases h1 : r.status = some "failed"
    · simp [h1]
    · by_cases h2 : r.status = some "broken" <;> simp [h1, h2]
  · unfold sort_key
    by_cases h1 : r.status = some "failed"
    · simp [h1]
    · by_cases h2 : r.status = some "broken" <;> simp [h1, h2]
  · rw [sorted_results_partition]
    decide

/-- Witness for C10 at a record with a literal `failed` status. -/
theorem claim_C10_witness :
    sort_key (mkStatus (some "failed")) = 0 :=
  ((claim_C10 (mkStatus (some "failed"))).1).mpr rfl

theorem pad2_length (n : Nat) (h : n < 100) : (pad2 n).length = 2 := by
  interval_cases n <;> rfl

/-- C5: `format_duration` renders values under 1000 as `<n>ms`, values in
[1000, 60000) as seconds with exactly two decimal digits, and values of
60000 and above as whole minutes (`duration / 60000`) plus remaining
seconds with two decimal digits; in particular 500 ↦ `500ms`,
1500 ↦ `1.50s` and 61000 ↦ `1m 1.00s`. -/
theorem claim_C5 :
    (∀ d : Int, d < 1000 → format_duration d = toString d ++ "ms") ∧
    (∀ d : Int, 1000 ≤ d → d < 60000 →
      ∃ s : Nat, ∃ f : String,
        format_duration d = toString s ++ "." ++ f ++ "s" ∧ f.length = 2) ∧
    (∀ d : Int, 60000 ≤ d →
      ∃ s : Nat, ∃ f : String,
        format_duration d =
          toString (d.toNat / 60000) ++ "m " ++ toString s ++ "." ++ f ++ "s" ∧
        f.length = 2) ∧
    format_duration 500 = "500ms" ∧
    format_duration 1500 = "1.50s" ∧
    format_duration 61000 = "1m 1.00s" := by
  refine ⟨?_, ?_, ?_, by decide, by decide, by decide⟩
  · intro d hd
    simp [format_duration, hd]
  · intro d h1 h2
    have hd : ¬d < 1000 := by omega
    refine ⟨round_half_even d.toNat / 100, pad2 (round_half_even d.toNat % 100),
      ?_, pad2_length _ (Nat.mod_lt _ (by omega))⟩
    simp [format_duration, hd, h2, format_two_dec]
  · intro d h1
    have hd : ¬d < 1000 := by omega
    have hd' : ¬d < 60000 := by omega
    refine ⟨round_half_even (d.toNat % 60000) / 100,
      pad2 (round_half_even (d.toNat % 60000) % 100),
      ?_, pad2_length _ (Nat.mod_lt _ (by omega))⟩
    simp [format_duration, hd, hd', format_two_dec, String.append_assoc]

/-- Witness for C5 at the boundaries of the three ranges. -/
theorem claim_C5_witness :
    format_duration 999 = "999ms" ∧
    (∃ s : Nat, ∃ f : String,
      format_duration 59999 = toString s ++ "." ++ f ++ "s" ∧ f.length = 2) ∧
    (∃ s : Nat, ∃ f : String,
      format_duration 60000 =
        toString ((60000 : Int).toNat / 60000) ++ "m " ++ toString s ++ "." ++
          f ++ "s" ∧ f.length = 2) :=
  ⟨claim_C5.1 999 (by decide),
   claim_C5.2.1 59999 (by decide) (by decide),
   claim_C5.2.2.1 60000 (by decide)⟩

/-- The style sheet of the template (generate_allure_report.py:97-393),
reproduced verbatim with braces and apostrophes escaped. -/
def css_styles : String := "        * \x7b
            margin: 0;
            padding: 0;
            box-sizing: border-box;
        \x7d
        
        body \x7b
            font-family: \x27Segoe UI\x27, Tahoma, Geneva, Verdana, sans-serif;
            background: linear-gradient(135deg, #667eea 0%, #764ba2 100%);
            min-height: 100vh;
            padding: 20px;
        \x7d
        
        .container \x7b
            max-width: 1400px;
            margin: 0 auto;
            background: white;
            border-radius: 12px;
            box-shadow: 0 20px 60px rgba(0,0,0,0.3);
            overflow: hidden;
        \x7d
        
        .header \x7b
            background: linear-gradient(135deg, #667eea 0%, #764ba2 100%);
            color: white;
            padding: 30px 40px;
            display: flex;
            justify-content: space-between;
            align-items: center;
        \x7d
        
        .header h1 \x7b
            font-size: 32px;
            font-weight: 600;
            display: flex;
            align-items: center;
            gap: 15px;
        \x7d
        
        .logo \x7b
            width: 50px;
            height: 50px;
            background: white;
            border-radius: 10px;
            display: flex;
            align-items: center;
            justify-content: center;
            font-size: 28px;
        \x7d
        
        .header-info \x7b
            text-align: right;
            font-size: 14px;
            opacity: 0.9;
        \x7d
        
        .stats \x7b
            display: grid;
            grid-template-columns: repeat(auto-fit, minmax(200px, 1fr));
            gap: 20px;
            padding: 30px 40px;
            background: #f8f9fa;
            border-bottom: 1px solid #e0e0e0;
        \x7d
        
        .stat-card \x7b
            background: white;
            padding: 20px;
            border-radius: 10px;
            box-shadow: 0 2px 8px rgba(0,0,0,0.1);
            transition: transform 0.2s, box-shadow 0.2s;
        \x7d
        
        .stat-card:hover \x7b
            transform: translateY(-5px);
            box-shadow: 0 4px 16px rgba(0,0,0,0.15);
        \x7d
        
        .stat-card h3 \x7b
            font-size: 14px;
            color: #666;
            margin-bottom: 10px;
            text-transform: uppercase;
            letter-spacing: 1px;
        \x7d
        
        .stat-value \x7b
            font-size: 36px;
            font-weight: bold;
            display: flex;
            align-items: center;
            gap: 10px;
        \x7d
        
        .stat-icon \x7b
            font-size: 24px;
        \x7d
        
        .tests-container \x7b
            padding: 40px;
        \x7d
        
        .test-card \x7b
            background: white;
            border: 1px solid #e0e0e0;
            border-radius: 10px;
            margin-bottom: 20px;
            overflow: hidden;
            transition: all 0.3s;
        \x7d
        
        .test-card:hover \x7b
            box-shadow: 0 4px 12px rgba(0,0,0,0.1);
            border-color: #667eea;
        \x7d
        
        .test-header \x7b
            padding: 20px 25px;
            background: #fafafa;
            border-bottom: 1px solid #e0e0e0;
            cursor: pointer;
            display: flex;
            justify-content: space-between;
            align-items: center;
            transition: background 0.2s;
        \x7d
        
        .test-header:hover \x7b
            background: #f0f0f0;
        \x7d
        
        .test-title \x7b
            display: flex;
            align-items: center;
            gap: 15px;
            flex: 1;
        \x7d
        
        .status-badge \x7b
            width: 40px;
            height: 40px;
            border-radius: 50%;
            display: flex;
            align-items: center;
            justify-content: center;
            font-size: 20px;
            font-weight: bold;
            color: white;
        \x7d
        
        .test-name \x7b
            font-size: 16px;
            font-weight: 500;
            color: #333;
        \x7d
        
        .test-meta \x7b
            display: flex;
            gap: 20px;
            align-items: center;
            font-size: 14px;
            color: #666;
        \x7d
        
        .duration \x7b
            background: #e3f2fd;
            color: #1976d2;
            padding: 5px 12px;
            border-radius: 20px;
            font-weight: 500;
        \x7d
        
        .test-body \x7b
            padding: 25px;
            display: none;
            background: white;
        \x7d
        
        .test-body.active \x7b
            display: block;
            animation: slideDown 0.3s ease-out;
        \x7d
        
        @keyframes slideDown \x7b
            from \x7b
                opacity: 0;
                transform: translateY(-10px);
            \x7d
            to \x7b
                opacity: 1;
                transform: translateY(0);
            \x7d
        \x7d
        
        .test-section \x7b
            margin-bottom: 20px;
        \x7d
        
        .test-section h4 \x7b
            font-size: 14px;
            color: #667eea;
            margin-bottom: 10px;
            text-transform: uppercase;
            letter-spacing: 1px;
        \x7d
        
        .test-steps \x7b
            background: #f8f9fa;
            padding: 15px;
            border-radius: 8px;
            border-left: 4px solid #667eea;
        \x7d
        
        .step \x7b
            padding: 8px 0;
            color: #555;
            display: flex;
            align-items: center;
            gap: 10px;
        \x7d
        
        .step-icon \x7b
            color: #4caf50;
            font-weight: bold;
        \x7d
        
        .attachment \x7b
            background: #fff3cd;
            border: 1px solid #ffc107;
            padding: 15px;
            border-radius: 8px;
            margin-top: 10px;
        \x7d
        
        .attachment-title \x7b
            font-weight: 600;
            color: #856404;
            margin-bottom: 8px;
        \x7d
        
        .attachment-content \x7b
            background: white;
            padding: 12px;
            border-radius: 5px;
            font-family: \x27Courier New\x27, monospace;
            font-size: 13px;
            white-space: pre-wrap;
            max-height: 300px;
            overflow-y: auto;
            color: #333;
        \x7d
        
        .error-message \x7b
            background: #ffebee;
            border-left: 4px solid #f44336;
            padding: 15px;
            border-radius: 8px;
            color: #c62828;
            font-family: \x27Courier New\x27, monospace;
            font-size: 13px;
            white-space: pre-wrap;
        \x7d
        
        .footer \x7b
            background: #f8f9fa;
            padding: 20px 40px;
            text-align: center;
            color: #666;
            font-size: 14px;
            border-top: 1px solid #e0e0e0;
        \x7d
        
        .expand-icon \x7b
            transition: transform 0.3s;
            font-size: 20px;
            color: #999;
        \x7d
        
        .expand-icon.active \x7b
            transform: rotate(180deg);
        \x7d
        
        .labels \x7b
            display: flex;
            flex-wrap: wrap;
            gap: 8px;
            margin-top: 10px;
        \x7d
        
        .label \x7b
            background: #e3f2fd;
            color: #1976d2;
            padding: 4px 10px;
            border-radius: 15px;
            font-size: 12px;
            font-weight: 500;
        \x7d\n"

/-! ### The document renderer

`generate_html` (generate_allure_report.py:80-594) builds one string from
fixed template chunks and the interpolated values.  The template text is
reproduced verbatim (braces and apostrophes are written with `\x7b`,
`\x7d` and `\x27` escapes); a source chunk is split into several named
pieces exactly at the interpolation points and at the section boundaries
the claims talk about, and the renderer concatenates the pieces in source
order. -/

/-- Lines 90-96 of the head template, after the leading doctype. -/
def doc_head1_b : String := "\n<html lang=\"ru\">\n<head>\n    <meta charset=\"UTF-8\">\n    <meta name=\"viewport\" content=\"width=device-width, initial-scale=1.0\">\n    <title>Allure Report - Test Results</title>\n    <style>\n"

/-- Lines 394-398 of the head template: style close, body open, container
open, up to the header block. -/
def doc_head2_a : String := "    </style>\n</head>\n<body>\n    <div class=\"container\">\n        "

/-- The header section opening tag (line 398). -/
def doc_head2_b : String := "<div class=\"header\">"

/-- Lines 399-404 up to the generation-timestamp interpolation. -/
def doc_head2_c : String := "\n            <h1>\n                <div class=\"logo\">📊</div>\n                Allure Test Report\n            </h1>\n            <div class=\"header-info\">\n                <div>Сгенерировано: "

/-- Between the timestamp and the total-count interpolation (404-405). -/
def doc_head3_a : String := "</div>\n                "

/-- The total-count line opening (line 405). -/
def doc_head3_b : String := "<div>Всего тестов: "

/-- Closing tag of the total-count line (line 405). -/
def doc_head4_a : String := "</div>"

/-- Lines 406-408: header close, up to the statistics block. -/
def doc_head4_b : String := "\n            </div>\n        </div>\n        \n"

/-- One entry of the statistics summary block: its heading, the inline
color, the icon and the rendered value (generate_allure_report.py:410-448
holds five such entries). -/
structure StatCard where
  title : String
  color : String
  icon : String
  value : String

/-- The five entries of the statistics summary block, in source order
(generate_allure_report.py:409-449): total, passed, failed and skipped
counts, then the formatted total duration.  The titles, colors and icons
are literals of the template. -/
def summary_cards (stats : String → Nat) (total_duration : Int) : List StatCard :=
  [⟨"Всего тестов", "#667eea", "📝", toString (stats "total")⟩,
   ⟨"Успешно", "#4caf50", "✓", toString (stats "passed")⟩,
   ⟨"Провалено", "#f44336", "✗", toString (stats "failed")⟩,
   ⟨"Пропущено", "#9e9e9e", "○", toString (stats "skipped")⟩,
   ⟨"Длительность", "#ff9800", "⏱", format_duration total_duration⟩]

/-- The shared markup of one summary entry. -/
def render_stat_card (c : StatCard) : String :=
  "            <div class=\"stat-card\">\n                <h3>" ++ c.title ++
    "</h3>\n                <div class=\"stat-value\" style=\"color: " ++ c.color ++
    ";\">\n                    <span class=\"stat-icon\">" ++ c.icon ++
    "</span>\n                    " ++ c.value ++
    "\n                </div>\n            </div>"

/-- Indentation before the statistics block opening tag (line 409). -/
def stats_open_a : String := "        "

/-- The statistics block opening tag (line 409). -/
def stats_open_b : String := "<div class=\"stats\">"

def stats_open_c : String := "\n"

/-- The statistics block closing (lines 449-450). -/
def stats_close : String := "\n        </div>\n        \n"

/-- The statistics summary block (generate_allure_report.py:409-450). -/
def stats_block (stats : String → Nat) (total_duration : Int) : String :=
  stats_open_a ++ stats_open_b ++ stats_open_c ++
    String.intercalate "\n            \n"
      ((summary_cards stats total_duration).map render_stat_card) ++
    stats_close

/-- The tests container opening, up to the section heading (451-452). -/
def tests_open_a : String := "        <div class=\"tests-container\">\n            <h2 style=\"margin-bottom: 25px; color: #333; font-size: 24px;\">"

/-- The results-section heading text (line 452). -/
def tests_open_b : String := "Результаты тестов"

def tests_open_c : String := "</h2>\n"

/-- Pieces of the per-test card header template
(generate_allure_report.py:476-494), split at the six interpolations. -/
def tch1 : String := "\n            <div class=\"test-card\">\n                <div class=\"test-header\" onclick=\"toggleTest("

def tch2 : String := ")\">\n                    <div class=\"test-title\">\n                        <div class=\"status-badge\" style=\"background-color: "

def tch3 : String := ";\">\n                            "

def tch4 : String := "\n                        </div>\n                        <div>\n                            <div class=\"test-name\">"

def tch5 : String := "</div>\n                            <div style=\"font-size: 12px; color: #999; margin-top: 5px;\">"

def tch6 : String := "</div>\n                        </div>\n                    </div>\n                    <div class=\"test-meta\">\n                        <span class=\"duration\">"

def tch7 : String := "</span>\n                        <span class=\"expand-icon\" id=\"icon-"

def tch8 : String := "\">▼</span>\n                    </div>\n                </div>\n                <div class=\"test-body\" id=\"body-"

def tch9 : String := "\">\n"

/-- The card header of one test (generate_allure_report.py:476-494),
with the card index, badge color, badge icon, name, full name and
formatted duration interpolated. -/
def test_card_header (idx : Nat) (color icon name full_name dur : String) : String :=
  tch1 ++ toString idx ++ tch2 ++ color ++ tch3 ++ icon ++ tch4 ++ name ++
    tch5 ++ full_name ++ tch6 ++ dur ++ tch7 ++ toString idx ++ tch8 ++
    toString idx ++ tch9

/-- One label tag (generate_allure_report.py:503-506). -/
def render_label (l : Label) : String :=
  "<span class=\"label\">" ++ l.name.getD "" ++ ": " ++ l.value.getD "" ++ "</span>"

/-- The labels section, emitted only for a non-empty label list
(generate_allure_report.py:497-510). -/
def labels_section (labels : List Label) : String :=
  "\n                    <div class=\"test-section\">\n                        <h4>Метки</h4>\n                        <div class=\"labels\">\n" ++
    String.join (labels.map render_label) ++
    "\n                        </div>\n                    </div>\n"

/-- One execution step line (generate_allure_report.py:519-524): the
marker is derived from the raw comparison `step.get('status', 'passed')
== 'passed'`. -/
def render_step (s : Step) : String :=
  let step_status := s.status.getD "passed"
  let step_icon := if step_status = "passed" then "✓" else "✗"
  let step_color := if step_status = "passed" then "#4caf50" else "#f44336"
  "<div class=\"step\"><span class=\"step-icon\" style=\"color: " ++ step_color ++
    ";\">" ++ step_icon ++ "</span> " ++ s.name.getD "Unknown Step" ++ "</div>"

/-- The steps section, emitted only for a non-empty step list
(generate_allure_report.py:513-528). -/
def steps_section (steps : List Step) : String :=
  "\n                    <div class=\"test-section\">\n                        <h4>Шаги выполнения</h4>\n                        <div class=\"test-steps\">\n" ++
    String.join (steps.map render_step) ++
    "\n                        </div>\n                    </div>\n"

/-- The failure section, emitted when the message or the trace is a
non-empty string (generate_allure_report.py:531-542). -/
def error_section (msg trace : String) : String :=
  "\n                    <div class=\"test-section\">\n                        <h4>Информация об ошибке</h4>\n" ++
    (if msg ≠ "" then "<div class=\"error-message\">" ++ msg ++ "</div>" else "") ++
    (if trace ≠ "" then "<div class=\"error-message\" style=\"margin-top: 10px;\">" ++ trace ++ "</div>" else "") ++
    "\n                    </div>\n"

/-- Pieces of one rendered attachment block
(generate_allure_report.py:558-563), split at the two interpolations. -/
def ai1 : String := "\n                        <div class=\"attachment\">\n                            <div class=\"attachment-title\">📎 "

def ai2 : String := "</div>\n                            <div class=\"attachment-content\">"

def ai3 : String := "</div>\n                        </div>\n"

/-- One attachment entry (generate_allure_report.py:550-563): an entry
whose `source` key resolves in the attachment store is rendered with the
stored content inlined verbatim; an entry whose key does not resolve
contributes nothing.  The source also reads the attachment's `type`
(defaulting to `text/plain`) but never uses it. -/
def attachment_item (store : AttachmentStore) (a : Attachment) : String :=
  match List.lookup (a.source.getD "") store with
  | some content => ai1 ++ a.name.getD "Attachment" ++ ai2 ++ content ++ ai3
  | none => ""

/-- The attachment entries of one record, concatenated in order (the
`for attachment in attachments` loop, generate_allure_report.py:550-563). -/
def render_attachment_items (store : AttachmentStore) : List Attachment → String
  | [] => ""
  | a :: rest => attachment_item store a ++ render_attachment_items store rest

/-- The attachments section, emitted only for a non-empty attachment list
(generate_allure_report.py:545-566). -/
def attachments_section (store : AttachmentStore) (atts : List Attachment) : String :=
  "\n                    <div class=\"test-section\">\n                        <h4>Вложения</h4>\n" ++
    render_attachment_items store atts ++
    "\n                    </div>\n"

/-- The card closing markup (generate_allure_report.py:568-571). -/
def test_card_close : String := "\n                </div>\n            </div>\n"

/-- One test card (the loop body, generate_allure_report.py:456-571):
every field is read with a default (`Unknown Test` for the name, the name
for the full name, 0 for the timestamps, empty collections and strings
for the rest), and each optional section is emitted only when its data is
non-empty, exactly as the source's truthiness tests do. -/
def render_test_card (idx : Nat) (r : ResultRecord) (store : AttachmentStore) : String :=
  let status := statusKey r
  let name := r.name.getD "Unknown Test"
  let full_name := r.fullName.getD name
  let duration := r.stop.getD 0 - r.start.getD 0
  let steps := r.steps.getD []
  let labels := r.labels.getD []
  let attachments := r.attachments.getD []
  let error_message := (r.statusDetails.map fun sd => sd.message.getD "").getD ""
  let error_trace := (r.statusDetails.map fun sd => sd.trace.getD "").getD ""
  test_card_header idx (get_status_color status) (get_status_icon status)
      name full_name (format_duration duration) ++
    (if labels ≠ [] then labels_section labels else "") ++
    (if steps ≠ [] then steps_section steps else "") ++
    (if error_message ≠ "" ∨ error_trace ≠ "" then
      error_section error_message error_trace else "") ++
    (if attachments ≠ [] then attachments_section store attachments else "") ++
    test_card_close

/-- `sum(r.get('stop', 0) - r.get('start', 0) for r in self.results)`
(generate_allure_report.py:83). -/
def total_duration (results : List ResultRecord) : Int :=
  results.foldl (fun acc r => acc + (r.stop.getD 0 - r.start.getD 0)) 0

/-- The `for idx, result in enumerate(sorted_results)` loop
(generate_allure_report.py:456): one card per record, indexed from 0. -/
def render_cards (store : AttachmentStore) (sorted : List ResultRecord) : String :=
  String.join (sorted.enum.map fun p => render_test_card p.1 p.2 store)

/-- Lines 573-575 of the tail template: tests container close, up to the
footer. -/
def doc_tail_a : String := "\n        </div>\n        \n        "

/-- The footer opening tag (line 576). -/
def doc_tail_b : String := "<div class=\"footer\">"

/-- Lines 577-590: footer text, container close and the toggle script. -/
def doc_tail_c : String := "\n            <p>Отчет сгенерирован автоматически | PetStore API Testing Project</p>\n            <p style=\"margin-top: 5px; font-size: 12px;\">Powered by Allure Framework & Custom HTML Generator</p>\n        </div>\n    </div>\n    \n    <script>\n        function toggleTest(index) \x7b\n            const body = document.getElementById(\x27body-\x27 + index);\n            const icon = document.getElementById(\x27icon-\x27 + index);\n            \n            body.classList.toggle(\x27active\x27);\n            icon.classList.toggle(\x27active\x27);\n        \x7d\n    </script>\n"

/-- The final two closing tags (lines 591-592). -/
def doc_tail_d : String := "</body>\n</html>\n"

/-- Embeds `generate_html` (generate_allure_report.py:80-594).  The
generation timestamp — the only impure value read by the source
(`datetime.now().strftime(...)`, line 404) — is an explicit parameter;
everything else is a pure function of the loaded results and the
attachment store.  The pieces are concatenated in exact source order. -/
def generate_html (results : List ResultRecord) (store : AttachmentStore)
    (timestamp : String) : String :=
  let stats := get_statistics results
  "<!DOCTYPE html>" ++ doc_head1_b ++ css_styles ++
    doc_head2_a ++ doc_head2_b ++ doc_head2_c ++ timestamp ++
    doc_head3_a ++ doc_head3_b ++ toString (stats "total") ++
    doc_head4_a ++ doc_head4_b ++
    stats_block stats (total_duration results) ++
    tests_open_a ++ tests_open_b ++ tests_open_c ++
    render_cards store (sorted_results results) ++
    doc_tail_a ++ doc_tail_b ++ doc_tail_c ++ doc_tail_d

/-- A record with every key absent. -/
def emptyRec : ResultRecord := {}

/-- Substring as explicit decomposition: `sub` occurs verbatim in `s`. -/
def ContainsStr (s sub : String) : Prop :=
  ∃ p q, s = p ++ sub ++ q

/-! ### Substring lemmas and renderer claims -/

theorem ContainsStr.inL {s sub : String} (h : ContainsStr s sub) (t : String) :
    ContainsStr (s ++ t) sub := by
  rcases h with ⟨p, q, rfl⟩
  exact ⟨p, q ++ t, by simp [String.append_assoc]⟩

theorem ContainsStr.inR {t sub : String} (h : ContainsStr t sub) (s : String) :
    ContainsStr (s ++ t) sub := by
  rcases h with ⟨p, q, rfl⟩
  exact ⟨s ++ p, q, by simp [String.append_assoc]⟩

theorem test_card_header_contains_icon (idx : Nat)
    (color icon name fn dur : String) :
    ContainsStr (test_card_header idx color icon name fn dur) icon :=
  ⟨tch1 ++ toString idx ++ tch2 ++ color ++ tch3,
   tch4 ++ name ++ tch5 ++ fn ++ tch6 ++ dur ++ tch7 ++ toString idx ++ tch8 ++
     toString idx ++ tch9,
   by simp [test_card_header, String.append_assoc]⟩

theorem test_card_header_contains_color (idx : Nat)
    (color icon name fn dur : String) :
    ContainsStr (test_card_header idx color icon name fn dur) color :=
  ⟨tch1 ++ toString idx ++ tch2,
   tch3 ++ icon ++ tch4 ++ name ++ tch5 ++ fn ++ tch6 ++ dur ++ tch7 ++
     toString idx ++ tch8 ++ toString idx ++ tch9,
   by simp [test_card_header, String.append_assoc]⟩

/-- A test card is its header followed by the optional sections and the
closing markup. -/
theorem render_test_card_decomp (idx : Nat) (r : ResultRecord)
    (store : AttachmentStore) :
    render_test_card idx r store =
      test_card_header idx (get_status_color (statusKey r))
          (get_status_icon (statusKey r)) (r.name.getD "Unknown Test")
          (r.fullName.getD (r.name.getD "Unknown Test"))
          (format_duration (r.stop.getD 0 - r.start.getD 0)) ++
        ((if r.labels.getD [] ≠ [] then labels_section (r.labels.getD []) else "") ++
         (if r.steps.getD [] ≠ [] then steps_section (r.steps.getD []) else "") ++
         (if (r.statusDetails.map fun sd => sd.message.getD "").getD "" ≠ "" ∨
             (r.statusDetails.map fun sd => sd.trace.getD "").getD "" ≠ "" then
           error_section ((r.statusDetails.map fun sd => sd.message.getD "").getD "")
             ((r.statusDetails.map fun sd => sd.trace.getD "").getD "")
          else "") ++
         (if r.attachments.getD [] ≠ [] then
           attachments_section store (r.attachments.getD []) else "") ++
         test_card_close) := by
  simp only [render_test_card]
  simp [String.append_assoc]

/-- C4, counterexample: the claim promises one summary entry per status
bucket (broken and unknown included), each with an icon and color from
the status-to-icon and status-to-color mappings.  The summary block
actually holds five fixed cards — total, passed, failed, skipped and
duration — whose icons are literals; no card carries the broken icon `⚠`
or the unknown icon `?`, even when a broken record is counted. -/
theorem claim_C4_counterexample :
    (summary_cards (get_statistics [mkStatus (some "broken")]) 0).map
        StatCard.icon = ["📝", "✓", "✗", "○", "⏱"] ∧
    get_status_icon "broken" = "⚠" ∧
    "⚠" ∉ (summary_cards (get_statistics [mkStatus (some "broken")]) 0).map
        StatCard.icon ∧
    get_status_icon "unknown" = "?" ∧
    "?" ∉ (summary_cards (get_statistics [mkStatus (some "broken")]) 0).map
        StatCard.icon ∧
    get_statistics [mkStatus (some "broken")] "broken" = 1 := by
  refine ⟨by decide, by decide, by decide, by decide, by decide, by decide⟩

/-- C4, amended: the statistics summary block holds exactly five cards —
the total, passed, failed and skipped counts and the formatted total
duration — with fixed literal titles, icons and colors; the broken and
unknown buckets have no summary entry.  The pure status-to-icon and
status-to-color mappings are applied to every record's status badge
instead, so a record with any status is displayed in its own card. -/
theorem claim_C4 (stats : String → Nat) (d : Int) :
    (summary_cards stats d).map StatCard.title =
      ["Всего тестов", "Успешно", "Провалено", "Пропущено", "Длительность"] ∧
    (summary_cards stats d).map StatCard.icon = ["📝", "✓", "✗", "○", "⏱"] ∧
    (summary_cards stats d).map StatCard.value =
      [toString (stats "total"), toString (stats "passed"),
       toString (stats "failed"), toString (stats "skipped"),
       format_duration d] ∧
    get_status_icon "broken" ∉ (summary_cards stats d).map StatCard.icon ∧
    get_status_icon "unknown" ∉ (summary_cards stats d).map StatCard.icon ∧
    (∀ (idx : Nat) (r : ResultRecord) (store : AttachmentStore),
      ContainsStr (render_test_card idx r store)
          (get_status_icon (statusKey r)) ∧
      ContainsStr (render_test_card idx r store)
          (get_status_color (statusKey r))) := by
  refine ⟨rfl, rfl, rfl, ?_, ?_, ?_⟩
  · rw [show (summary_cards stats d).map StatCard.icon =
        ["📝", "✓", "✗", "○", "⏱"] from rfl,
      show get_status_icon "broken" = "⚠" from rfl]
    decide
  · rw [show (summary_cards stats d).map StatCard.icon =
        ["📝", "✓", "✗", "○", "⏱"] from rfl,
      show get_status_icon "unknown" = "?" from rfl]
    decide
  · intro idx r store
    rw [render_test_card_decomp]
    exact ⟨(test_card_header_contains_icon idx _ _ _ _ _).inL _,
           (test_card_header_contains_color idx _ _ _ _ _).inL _⟩

/-- Witness for C4 at the empty statistics. -/
theorem claim_C4_witness :
    (summary_cards (get_statistics []) 0).map StatCard.icon =
      ["📝", "✓", "✗", "○", "⏱"] ∧
    get_status_icon "broken" ∉
      (summary_cards (get_statistics []) 0).map StatCard.icon :=
  ⟨(claim_C4 (get_statistics []) 0).2.1,
   (claim_C4 (get_statistics []) 0).2.2.2.1⟩

theorem render_items_contains (store : AttachmentStore) :
    ∀ (atts : List Attachment) (a : Attachment) (c : String), a ∈ atts →
      List.lookup (a.source.getD "") store = some c →
      ContainsStr (render_attachment_items store atts) c := by
  intro atts
  induction atts with
  | nil =>
    intro a c ha
    simp at ha
  | cons x rest ih =>
    intro a c ha hc
    rcases List.mem_cons.mp ha with rfl | hmem
    · have hitem : attachment_item store a =
          ai1 ++ a.name.getD "Attachment" ++ ai2 ++ c ++ ai3 := by
        simp [attachment_item, hc]
      show ContainsStr (attachment_item store a ++
        render_attachment_items store rest) c
      have hbase : ContainsStr (attachment_item store a) c :=
        ⟨ai1 ++ a.name.getD "Attachment" ++ ai2, ai3, by rw [hitem]⟩
      exact hbase.inL _
    · show ContainsStr (attachment_item store x ++
        render_attachment_items store rest) c
      exact (ih a c hmem hc).inR _

theorem render_items_filter (store : AttachmentStore) :
    ∀ atts : List Attachment,
      render_attachment_items store atts =
        render_attachment_items store
          (atts.filter fun a => (List.lookup (a.source.getD "") store).isSome) := by
  intro atts
  induction atts with
  | nil => rfl
  | cons a rest ih =>
    cases hc : List.lookup (a.source.getD "") store with
    | some c =>
      simp only [render_attachment_items, List.filter_cons, hc,
        Option.isSome_some, if_true]
      rw [ih]
    | none =>
      have hitem : attachment_item store a = "" := by
        simp [attachment_item, hc]
      simp only [render_attachment_items, List.filter_cons, hc,
        Option.isSome_none, Bool.false_eq_true, if_false, hitem,
        String.empty_append]
      exact ih

/-- C6: an attachment entry whose `source` key resolves in the attachment
store has the stored content appear verbatim in the rendered attachment
block, and removing every entry whose key does not resolve leaves the
rendered block unchanged — an unresolved entry contributes nothing (and
the renderer is a total function, so nothing is raised). -/
theorem claim_C6 (store : AttachmentStore) (atts : List Attachment) :
    (∀ a ∈ atts, ∀ c : String,
        List.lookup (a.source.getD "") store = some c →
        ContainsStr (render_attachment_items store atts) c) ∧
    render_attachment_items store atts =
      render_attachment_items store
        (atts.filter fun a => (List.lookup (a.source.getD "") store).isSome) :=
  ⟨fun a ha c hc => render_items_contains store atts a c ha hc,
   render_items_filter store atts⟩

/-- Witness for C6: one resolving and one dangling entry. -/
theorem claim_C6_witness :
    ContainsStr
      (render_attachment_items [("log.txt", "ATTACHED-CONTENT")]
        [{ name := some "log", source := some "log.txt" },
         { name := some "gone", source := some "missing.txt" }])
      "ATTACHED-CONTENT" :=
  (claim_C6 [("log.txt", "ATTACHED-CONTENT")]
      [{ name := some "log", source := some "log.txt" },
       { name := some "gone", source := some "missing.txt" }]).1
    { name := some "log", source := some "log.txt" } (by decide)
    "ATTACHED-CONTENT" rfl

set_option maxRecDepth 16384 in
/-- C7: the renderer is total over records with missing fields — every
field is read through a defaulting access, so for any record list the
produced document is complete (it starts with the doctype and ends with
the closing body and html tags), and a record with every key absent
renders as a card with the defaults substituted (`Unknown Test` for name
and full name, the `unknown` badge color `#607d8b` and icon `?`, a 0ms
duration) and with every optional section omitted. -/
theorem claim_C7 (results : List ResultRecord) (store : AttachmentStore)
    (t : String) :
    (∃ rest, generate_html results store t = "<!DOCTYPE html>" ++ rest) ∧
    (∃ init, generate_html results store t = init ++ "</body>\n</html>\n") ∧
    render_test_card 0 emptyRec [] =
      test_card_header 0 "#607d8b" "?" "Unknown Test" "Unknown Test" "0ms" ++
        test_card_close := by
  refine ⟨?_, ?_, by decide⟩
  · refine ⟨doc_head1_b ++ css_styles ++ doc_head2_a ++ doc_head2_b ++
      doc_head2_c ++ t ++ doc_head3_a ++ doc_head3_b ++
      toString (get_statistics results "total") ++ doc_head4_a ++ doc_head4_b ++
      stats_block (get_statistics results) (total_duration results) ++
      tests_open_a ++ tests_open_b ++ tests_open_c ++
      render_cards store (sorted_results results) ++
      doc_tail_a ++ doc_tail_b ++ doc_tail_c ++ doc_tail_d, ?_⟩
    simp only [generate_html]
    simp [String.append_assoc]
  · refine ⟨"<!DOCTYPE html>" ++ doc_head1_b ++ css_styles ++ doc_head2_a ++
      doc_head2_b ++ doc_head2_c ++ t ++ doc_head3_a ++ doc_head3_b ++
      toString (get_statistics results "total") ++ doc_head4_a ++ doc_head4_b ++
      stats_block (get_statistics results) (total_duration results) ++
      tests_open_a ++ tests_open_b ++ tests_open_c ++
      render_cards store (sorted_results results) ++
      doc_tail_a ++ doc_tail_b ++ doc_tail_c, ?_⟩
    rw [show ("</body>\n</html>\n" : String) = doc_tail_d from rfl]
    simp only [generate_html]

/-- C8: rendering with zero loaded records succeeds and produces a
complete document: the total and every status bucket are 0, the header
block, the statistics summary block, the total count line showing 0, the
results heading and the footer are all present, and the document closes
properly; no division occurs anywhere in the renderer. -/
theorem claim_C8 (store : AttachmentStore) (t : String) :
    get_statistics [] "total" = 0 ∧ get_statistics [] "passed" = 0 ∧
    get_statistics [] "failed" = 0 ∧ get_statistics [] "broken" = 0 ∧
    get_statistics [] "skipped" = 0 ∧ get_statistics [] "unknown" = 0 ∧
    ContainsStr (generate_html [] store t) "<div class=\"header\">" ∧
    ContainsStr (generate_html [] store t) "<div>Всего тестов: 0</div>" ∧
    ContainsStr (generate_html [] store t) "<div class=\"stats\">" ∧
    ContainsStr (generate_html [] store t) "Результаты тестов" ∧
    ContainsStr (generate_html [] store t) "<div class=\"footer\">" ∧
    (∃ init, generate_html [] store t = init ++ "</body>\n</html>\n") := by
  refine ⟨rfl, rfl, rfl, rfl, rfl, rfl, ?_, ?_, ?_, ?_, ?_, ?_⟩
  · refine ⟨"<!DOCTYPE html>" ++ doc_head1_b ++ css_styles ++ doc_head2_a,
      doc_head2_c ++ t ++ doc_head3_a ++ doc_head3_b ++
      toString (get_statistics [] "total") ++ doc_head4_a ++ doc_head4_b ++
      stats_block (get_statistics []) (total_duration []) ++
      tests_open_a ++ tests_open_b ++ tests_open_c ++
      render_cards store (sorted_results []) ++
      doc_tail_a ++ doc_tail_b ++ doc_tail_c ++ doc_tail_d, ?_⟩
    rw [show ("<div class=\"header\">" : String) = doc_head2_b from rfl]
    simp only [generate_html]
    simp [String.append_assoc]
  · refine ⟨"<!DOCTYPE html>" ++ doc_head1_b ++ css_styles ++ doc_head2_a ++
      doc_head2_b ++ doc_head2_c ++ t ++ doc_head3_a,
      doc_head4_b ++ stats_block (get_statistics []) (total_duration []) ++
      tests_open_a ++ tests_open_b ++ tests_open_c ++
      render_cards store (sorted_results []) ++
      doc_tail_a ++ doc_tail_b ++ doc_tail_c ++ doc_tail_d, ?_⟩
    rw [show ("<div>Всего тестов: 0</div>" : String) =
      doc_head3_b ++ toString (get_statistics ([] : List ResultRecord) "total") ++
        doc_head4_a from rfl]
    simp only [generate_html]
    simp [String.append_assoc]
  · refine ⟨"<!DOCTYPE html>" ++ doc_head1_b ++ css_styles ++ doc_head2_a ++
      doc_head2_b ++ doc_head2_c ++ t ++ doc_head3_a ++ doc_head3_b ++
      toString (get_statistics [] "total") ++ doc_head4_a ++ doc_head4_b ++
      stats_open_a,
      stats_open_c ++ String.intercalate "\n            \n"
          ((summary_cards (get_statistics []) (total_duration [])).map
            render_stat_card) ++ stats_close ++
      tests_open_a ++ tests_open_b ++ tests_open_c ++
      render_cards store (sorted_results []) ++
      doc_tail_a ++ doc_tail_b ++ doc_tail_c ++ doc_tail_d, ?_⟩
    rw [show ("<div class=\"stats\">" : String) = stats_open_b from rfl]
    simp only [generate_html, stats_block]
    simp [String.append_assoc]
  · refine ⟨"<!DOCTYPE html>" ++ doc_head1_b ++ css_styles ++ doc_head2_a ++
      doc_head2_b ++ doc_head2_c ++ t ++ doc_head3_a ++ doc_head3_b ++
      toString (get_statistics [] "total") ++ doc_head4_a ++ doc_head4_b ++
      stats_block (get_statistics []) (total_duration []) ++ tests_open_a,
      tests_open_c ++ render_cards store (sorted_results []) ++
      doc_tail_a ++ doc_tail_b ++ doc_tail_c ++ doc_tail_d, ?_⟩
    rw [show ("Результаты тестов" : String) = tests_open_b from rfl]
    simp only [generate_html]
    simp [String.append_assoc]
  · refine ⟨"<!DOCTYPE html>" ++ doc_head1_b ++ css_styles ++ doc_head2_a ++
      doc_head2_b ++ doc_head2_c ++ t ++ doc_head3_a ++ doc_head3_b ++
      toString (get_statistics [] "total") ++ doc_head4_a ++ doc_head4_b ++
      stats_block (get_statistics []) (total_duration []) ++
      tests_open_a ++ tests_open_b ++ tests_open_c ++
      render_cards store (sorted_results []) ++ doc_tail_a,
      doc_tail_c ++ doc_tail_d, ?_⟩
    rw [show ("<div class=\"footer\">" : String) = doc_tail_b from rfl]
    simp only [generate_html]
    simp [String.append_assoc]
  · refine ⟨"<!DOCTYPE html>" ++ doc_head1_b ++ css_styles ++ doc_head2_a ++
      doc_head2_b ++ doc_head2_c ++ t ++ doc_head3_a ++ doc_head3_b ++
      toString (get_statistics [] "total") ++ doc_head4_a ++ doc_head4_b ++
      stats_block (get_statistics []) (total_duration []) ++
      tests_open_a ++ tests_open_b ++ tests_open_c ++
      render_cards store (sorted_results []) ++
      doc_tail_a ++ doc_tail_b ++ doc_tail_c, ?_⟩
    rw [show ("</body>\n</html>\n" : String) = doc_tail_d from rfl]
    simp only [generate_html]

/-- C9: the renderer is deterministic — it is a pure function of the
loaded results, the attachment store and the generation timestamp (the
embedding's explicit parameter for the source's single `datetime.now()`
read), so two runs over equal inputs produce character-for-character
equal documents. -/
theorem claim_C9 (results1 results2 : List ResultRecord)
    (store1 store2 : AttachmentStore) (t1 t2 : String)
    (hr : results1 = results2) (hs : store1 = store2) (ht : t1 = t2) :
    generate_html results1 store1 t1 = generate_html results2 store2 t2 := by
  subst hr
  subst hs
  subst ht
  rfl

/-- Witness for C9 at a concrete input. -/
theorem claim_C9_witness :
    generate_html [mkStatus (some "passed")] [] "01.01.2024 00:00:00" =
      generate_html [mkStatus (some "passed")] [] "01.01.2024 00:00:00" :=
  claim_C9 [mkStatus (some "passed")] [mkStatus (some "passed")] [] []
    "01.01.2024 00:00:00" "01.01.2024 00:00:00" rfl rfl rfl

end AllureReport
